import Mathlib

/-!
Shallow embedding of the feature-detection core of the spectra-viewer
repository (src/curve_tools.py and src/peak_analysis_dialog.py).

Real-valued sample data is modelled over the rationals; the NumPy/SciPy
library routines the source calls (scipy.signal.find_peaks,
scipy.signal.savgol_filter with polyorder 2 and mode interp, np.gradient
with edge_order 1, np.quantile with linear interpolation, np.std) are
embedded directly from the published reference algorithms, specialised to
the argument shapes the source uses.  Sorting in NumPy/Python is modelled
as stable sorting (Python list.sort is stable); `abs x < 0.1 * np.std v`
is modelled by the exactly equivalent rational comparison
`100 * x^2 < var v` to avoid square roots.  Out-of-range list reads use a
default value; every index the algorithms read is in range.
-/

/-- Read a rational list at an index, defaulting to 0 out of range. -/
def qget (ys : List ℚ) (i : ℕ) : ℚ := ys.getD i 0

/-- np.max of a list (0 for the empty list; callers guard nonemptiness). -/
def listMax : List ℚ → ℚ
  | [] => 0
  | y :: ys => ys.foldl max y

/-- np.min of a list (0 for the empty list; callers guard nonemptiness). -/
def listMin : List ℚ → ℚ
  | [] => 0
  | y :: ys => ys.foldl min y

/-- np.min over the index slice [a, b) of a list. -/
def sliceMin (ys : List ℚ) (a b : ℕ) : ℚ := listMin ((ys.drop a).take (b - a))

/-- np.quantile(ys, 0.05) with the default linear interpolation method. -/
def np_quantile05 (ys : List ℚ) : ℚ :=
  let n := ys.length
  let s := List.insertionSort (fun a b : ℚ => a ≤ b) ys
  let h : ℚ := ((n : ℚ) - 1) / 20
  let i : ℕ := h.floor.toNat
  let g : ℚ := h - (i : ℚ)
  qget s i + g * (qget s (i + 1) - qget s i)

/-- Square of np.std (population variance); used to decide
`abs x < 0.1 * np.std v` as `100 * x^2 < np_std_sq v`. -/
def np_std_sq (ys : List ℚ) : ℚ :=
  let n := ys.length
  let mu := ys.sum / (n : ℚ)
  ((ys.map (fun v => (v - mu) ^ 2)).sum) / (n : ℚ)

/-- A raw local maximum found by scipy _local_maxima_1d: plateau midpoint
and edges. -/
structure RawPeak where
  mid : ℕ
  leftEdge : ℕ
  rightEdge : ℕ
  deriving DecidableEq

/-- Inner while loop of scipy _local_maxima_1d: advance `j` over the
plateau of value `v`, stopping at `iMax`. -/
def plateauEnd (y : List ℚ) (iMax : ℕ) (v : ℚ) : ℕ → ℕ → ℕ
  | 0, j => j
  | fuel + 1, j => if j < iMax ∧ qget y j = v then plateauEnd y iMax v fuel (j + 1) else j

/-- Outer loop of scipy _local_maxima_1d (fuel-based; fuel = length is
enough since the scan index strictly increases). -/
def localMaximaAux (y : List ℚ) (iMax : ℕ) : ℕ → ℕ → List RawPeak
  | 0, _ => []
  | fuel + 1, i =>
    if i < iMax then
      if qget y (i - 1) < qget y i then
        let iAhead := plateauEnd y iMax (qget y i) y.length (i + 1)
        if qget y iAhead < qget y i then
          { mid := (i + (iAhead - 1)) / 2, leftEdge := i, rightEdge := iAhead - 1 } ::
            localMaximaAux y iMax fuel (iAhead + 1)
        else localMaximaAux y iMax fuel (i + 1)
      else localMaximaAux y iMax fuel (i + 1)
    else []

/-- scipy _local_maxima_1d: indices of local maxima (plateau midpoints),
in ascending order. -/
def scipy_local_maxima (y : List ℚ) : List RawPeak :=
  localMaximaAux y (y.length - 1) y.length 1

/-- Stable ascending argsort of a priority list (ties by position). -/
def argsortAsc (priority : List ℚ) : List ℕ :=
  List.insertionSort
    (fun a b =>
      priority.getD a 0 < priority.getD b 0 ∨
        (priority.getD a 0 = priority.getD b 0 ∧ a ≤ b))
    (List.range priority.length)

/-- One step of scipy _select_by_peak_distance: when peak `k` is still
kept, clear every other peak whose midpoint is closer than `d`. -/
def selectByDistanceLoop (mids : List ℕ) (d : ℕ) : List ℕ → List Bool → List Bool
  | [], keep => keep
  | k :: rest, keep =>
    if keep.getD k false then
      let keep2 := keep.mapIdx (fun m b =>
        if m ≠ k ∧ ((mids.getD m 0 : ℤ) - (mids.getD k 0 : ℤ)).natAbs < d then false else b)
      selectByDistanceLoop mids d rest keep2
    else selectByDistanceLoop mids d rest keep

/-- scipy _select_by_peak_distance: keep-flags after processing peaks in
descending priority order. -/
def scipy_select_by_peak_distance (mids : List ℕ) (priority : List ℚ) (d : ℕ) : List Bool :=
  selectByDistanceLoop mids d (argsortAsc priority).reverse (List.replicate mids.length true)

/-- Keep the elements of `xs` whose keep-flag is true. -/
def filterByKeep {α : Type} (xs : List α) (keep : List Bool) : List α :=
  ((xs.zip keep).filter (fun p => p.2)).map (fun p => p.1)

/-- A peak with its prominence data (scipy _peak_prominences output row). -/
structure PromPeak where
  mid : ℕ
  prom : ℚ
  leftBase : ℕ
  rightBase : ℕ
  deriving DecidableEq

/-- Left half of scipy _peak_prominences: walk left from the peak while
values stay at or below the peak, tracking the running minimum and its
position. -/
def promScanLeft (y : List ℚ) (ypeak : ℚ) (iMin : ℕ) : ℕ → ℕ → ℚ → ℕ → ℚ × ℕ
  | 0, _, lmin, base => (lmin, base)
  | fuel + 1, i, lmin, base =>
    if iMin < i ∧ qget y i ≤ ypeak then
      if qget y (i - 1) < lmin then promScanLeft y ypeak iMin fuel (i - 1) (qget y (i - 1)) (i - 1)
      else promScanLeft y ypeak iMin fuel (i - 1) lmin base
    else (lmin, base)

/-- Right half of scipy _peak_prominences. -/
def promScanRight (y : List ℚ) (ypeak : ℚ) (iMax : ℕ) : ℕ → ℕ → ℚ → ℕ → ℚ × ℕ
  | 0, _, rmin, base => (rmin, base)
  | fuel + 1, i, rmin, base =>
    if i < iMax ∧ qget y i ≤ ypeak then
      if qget y (i + 1) < rmin then promScanRight y ypeak iMax fuel (i + 1) (qget y (i + 1)) (i + 1)
      else promScanRight y ypeak iMax fuel (i + 1) rmin base
    else (rmin, base)

/-- scipy _peak_prominences for one peak; `wlen = none` models the
unbounded window (scipy wlen = -1). -/
def scipy_peak_prominence (y : List ℚ) (peak : ℕ) (wlen : Option ℕ) : PromPeak :=
  let n := y.length
  let iMin : ℕ := match wlen with
    | some w => if 2 ≤ w then peak - w / 2 else 0
    | none => 0
  let iMax : ℕ := match wlen with
    | some w => if 2 ≤ w then min (peak + w / 2) (n - 1) else n - 1
    | none => n - 1
  let l := promScanLeft y (qget y peak) iMin n peak (qget y peak) peak
  let r := promScanRight y (qget y peak) iMax n peak (qget y peak) peak
  { mid := peak, prom := qget y peak - max l.1 r.1, leftBase := l.2, rightBase := r.2 }

/-- Left scan of scipy _peak_widths: walk left from the peak while the
signal stays above the evaluation height. -/
def widthScanLeft (y : List ℚ) (h : ℚ) (iMin : ℕ) : ℕ → ℕ → ℕ
  | 0, i => i
  | fuel + 1, i => if iMin < i ∧ h < qget y i then widthScanLeft y h iMin fuel (i - 1) else i

/-- Right scan of scipy _peak_widths. -/
def widthScanRight (y : List ℚ) (h : ℚ) (iMax : ℕ) : ℕ → ℕ → ℕ
  | 0, i => i
  | fuel + 1, i => if i < iMax ∧ h < qget y i then widthScanRight y h iMax fuel (i + 1) else i

/-- scipy _peak_widths for one peak at rel_height = 0.5, returning the
interpolated width. -/
def scipy_peak_width (y : List ℚ) (p : PromPeak) : ℚ :=
  let h := qget y p.mid - p.prom / 2
  let li := widthScanLeft y h p.leftBase y.length p.mid
  let leftIp : ℚ :=
    if qget y li < h then (li : ℚ) + (h - qget y li) / (qget y (li + 1) - qget y li)
    else (li : ℚ)
  let ri := widthScanRight y h p.rightBase y.length p.mid
  let rightIp : ℚ :=
    if qget y ri < h then (ri : ℚ) - (h - qget y ri) / (qget y (ri - 1) - qget y ri)
    else (ri : ℚ)
  rightIp - leftIp

/-- scipy.signal.find_peaks specialised to the argument shapes used by
curve_tools.py: scalar minimum height, integer distance, scalar minimum
prominence, scalar minimum width (rel_height 0.5), optional minimum
plateau size, optional wlen.  Filters run in scipy order: plateau size,
height, distance, prominence, width.  Returns the surviving peak indices
in ascending order. -/
def scipy_find_peaks (y : List ℚ) (height : ℚ) (distance : ℕ) (promMin : ℚ)
    (widthMin : ℚ) (plateauMin : Option ℕ) (wlen : Option ℕ) : List ℕ :=
  let raw := scipy_local_maxima y
  let raw := match plateauMin with
    | some p => raw.filter (fun r : RawPeak => decide (p ≤ r.rightEdge - r.leftEdge + 1))
    | none => raw
  let raw := raw.filter (fun r : RawPeak => decide (height ≤ qget y r.mid))
  let mids := raw.map (fun r : RawPeak => r.mid)
  let keep := scipy_select_by_peak_distance mids (mids.map (fun m => qget y m)) distance
  let mids2 := filterByKeep mids keep
  let proms := mids2.map (fun m => scipy_peak_prominence y m wlen)
  let proms2 := proms.filter (fun p => decide (promMin ≤ p.prom))
  let proms3 := proms2.filter (fun p => decide (widthMin ≤ scipy_peak_width y p))
  proms3.map (fun p => p.mid)

/-- Least-squares quadratic fit to the points (j - m, ys[j]) for
j = 0 .. w-1 with m = (w-1)/2, evaluated at the centred coordinate `u`.
This is exactly the polynomial scipy savgol_filter (polyorder 2) uses,
both for the central convolution coefficients (u = 0) and for the
mode='interp' edge handling. -/
def quadFitEval (ys : List ℚ) (u : ℚ) : ℚ :=
  let w := ys.length
  let m : ℚ := ((w : ℚ) - 1) / 2
  let ts := (List.range w).map (fun j => (j : ℚ) - m)
  let s2 := (ts.map (fun t => t ^ 2)).sum
  let s4 := (ts.map (fun t => t ^ 4)).sum
  let m0 := ys.sum
  let m1 := ((ts.zip ys).map (fun p => p.1 * p.2)).sum
  let m2 := ((ts.zip ys).map (fun p => p.1 ^ 2 * p.2)).sum
  let det := (w : ℚ) * s4 - s2 ^ 2
  let b0 := (s4 * m0 - s2 * m2) / det
  let b1 := m1 / s2
  let b2 := ((w : ℚ) * m2 - s2 * m0) / det
  b0 + b1 * u + b2 * u ^ 2

/-- scipy.signal.savgol_filter with polyorder 2 and the default
mode='interp', for an odd window length `w ≤ ys.length`: interior points
are the quadratic least-squares fit of the surrounding window evaluated
at its centre; the first and last (w-1)/2 points evaluate the fit of the
first/last w values at their own positions. -/
def savgol_filter (ys : List ℚ) (w : ℕ) : List ℚ :=
  let n := ys.length
  let m := (w - 1) / 2
  (List.range n).map (fun i =>
    if i < m then quadFitEval (ys.take w) ((i : ℚ) - (m : ℚ))
    else if n ≤ i + m then quadFitEval (ys.drop (n - w)) ((i : ℚ) - ((n : ℚ) - 1 - (m : ℚ)))
    else quadFitEval ((ys.drop (i - m)).take w) 0)

/-- np.gradient(ys, xs) with the default edge_order 1: one-sided
differences at the ends, the second-order nonuniform-spacing formula in
the interior. -/
def np_gradient (ys xs : List ℚ) : List ℚ :=
  let n := ys.length
  (List.range n).map (fun i =>
    if i = 0 then (qget ys 1 - qget ys 0) / (qget xs 1 - qget xs 0)
    else if i = n - 1 then (qget ys (n - 1) - qget ys (n - 2)) / (qget xs (n - 1) - qget xs (n - 2))
    else
      let hs := qget xs i - qget xs (i - 1)
      let hd := qget xs (i + 1) - qget xs i
      (hs ^ 2 * qget ys (i + 1) + (hd ^ 2 - hs ^ 2) * qget ys i - hd ^ 2 * qget ys (i - 1)) /
        (hs * hd * (hs + hd)))

/-- Stable sort of the data rows by wavelength (the np.argsort
reordering of both columns; ties keep their order in this model). -/
def sortByX (df : List (ℚ × ℚ)) : List (ℚ × ℚ) :=
  List.insertionSort (fun p q : ℚ × ℚ => p.1 ≤ q.1) df

/-- One detected peak row of find_fluorescence_peaks
(wavelength/intensity/data_index dict plus the 1-based index assigned
after truncation). -/
structure FPPeak where
  wavelength : ℚ
  intensity : ℚ
  data_index : ℕ
  index : ℕ
  deriving DecidableEq

/-- The first_peak / third_peak convenience reference (the constant
position tag and, for combined results, the detection_type tag of the
source dict are not modelled; the claims compare references by
wavelength and intensity). -/
structure PeakRef where
  wavelength : ℚ
  intensity : ℚ
  deriving DecidableEq

/-- The analysis_params sub-dict of a find_fluorescence_peaks result. -/
structure FPParams where
  min_height : ℚ
  min_distance : ℕ
  prominence_abs : ℚ
  smoothed : Bool
  deriving DecidableEq

/-- The result dict of find_fluorescence_peaks.  `warning` models the
presence of the force-detect warning entry. -/
structure PeakResults where
  num_peaks_found : ℕ
  all_peaks : List FPPeak
  first_peak : Option PeakRef
  third_peak : Option PeakRef
  analysis_params : FPParams
  warning : Bool
  deriving DecidableEq

/-- Assign 1-based indices (source: peak['index'] = i + 1). -/
def assignPeakIndices : ℕ → List FPPeak → List FPPeak
  | _, [] => []
  | i, p :: ps => { p with index := i + 1 } :: assignPeakIndices (i + 1) ps

/-- The smoothing step of find_fluorescence_peaks: applied only when
smooth is on and the curve is at least window_length long; the window is
made odd by adding one, clamped to half the length, and used only if
still at least 3; a savgol failure (even window after clamping) is
swallowed, keeping the original data. -/
def fpSmooth (ys : List ℚ) (smooth : Bool) (window_length : ℕ) : List ℚ :=
  if smooth ∧ window_length ≤ ys.length then
    let w1 := if window_length % 2 = 0 then window_length + 1 else window_length
    let w2 := min w1 (ys.length / 2)
    if 3 ≤ w2 ∧ w2 % 2 = 1 then savgol_filter ys w2 else ys
  else ys

/-- Relation sorting FPPeak rows by wavelength ascending. -/
def fpPeakWlLE (a b : FPPeak) : Prop := a.wavelength ≤ b.wavelength

instance : DecidableRel fpPeakWlLE :=
  fun a b => inferInstanceAs (Decidable (a.wavelength ≤ b.wavelength))

/-- curve_tools.find_fluorescence_peaks.  A data row is a (wavelength,
intensity) pair of rationals (the non-numeric-coercion failure mode has
no counterpart for rational data).  Validation failures return the
source's ValueError messages. -/
def find_fluorescence_peaks (df : List (ℚ × ℚ)) (max_peaks : ℕ) (min_height : Option ℚ)
    (min_distance : ℕ) (prominence : ℚ) (smooth : Bool) (window_length : ℕ) :
    Except String PeakResults :=
  if df.length = 0 then .error "Input DataFrame is empty or None"
  else if df.length < 10 then
    .error "Not enough data points for peak analysis (minimum 10 required)"
  else
    let rows := sortByX df
    let wavelength := rows.map (fun p => p.1)
    let intensity := fpSmooth (rows.map (fun p => p.2)) smooth window_length
    let n := intensity.length
    let max_intensity := listMax intensity
    let min_intensity := listMin intensity
    let intensity_range := max_intensity - min_intensity
    let mh := match min_height with
      | some h => h
      | none => np_quantile05 intensity + 5 / 1000 * intensity_range
    let abs_prominence := max (prominence * (max_intensity - min_intensity)) (1 / 1000000)
    let wlen := max 11 (min (n / 6) 61)
    let peaks := scipy_find_peaks intensity mh (max 1 min_distance) abs_prominence 1
      (some 1) (some wlen)
    let candidates := peaks.map (fun i =>
      ({ wavelength := qget wavelength i, intensity := qget intensity i,
         data_index := i, index := 0 } : FPPeak))
    let selected := assignPeakIndices 0
      ((List.insertionSort fpPeakWlLE candidates).take max_peaks)
    .ok {
      num_peaks_found := selected.length
      all_peaks := selected
      first_peak := selected[0]?.map (fun p => { wavelength := p.wavelength, intensity := p.intensity })
      third_peak := selected[2]?.map (fun p => { wavelength := p.wavelength, intensity := p.intensity })
      analysis_params := {
        min_height := mh
        min_distance := min_distance
        prominence_abs := abs_prominence
        smoothed := smooth }
      warning := false }

/-- curve_tools.find_fluorescence_peaks_sensitive. -/
def find_fluorescence_peaks_sensitive (df : List (ℚ × ℚ)) (max_peaks : ℕ) :
    Except String PeakResults :=
  find_fluorescence_peaks df max_peaks none 1 (1 / 10000) false 5

/-- curve_tools.find_fluorescence_peaks_ultra_sensitive. -/
def find_fluorescence_peaks_ultra_sensitive (df : List (ℚ × ℚ)) (max_peaks : ℕ) :
    Except String PeakResults :=
  find_fluorescence_peaks df max_peaks none 1 (1 / 100000) false 3

/-- curve_tools.find_fluorescence_peaks_force_detect: no validation, ultra
permissive parameters, every exception swallowed into a zero-peak result
(modelled by the empty-input branch; for nonempty rational data the body
is total).  The result carries the force-detect warning. -/
def find_fluorescence_peaks_force_detect (df : List (ℚ × ℚ)) (max_peaks : ℕ) : PeakResults :=
  if df.length = 0 then
    { num_peaks_found := 0
      all_peaks := []
      first_peak := none
      third_peak := none
      analysis_params := { min_height := 0, min_distance := 1, prominence_abs := 0, smoothed := false }
      warning := false }
  else
    let rows := sortByX df
    let wavelength := rows.map (fun p => p.1)
    let intensity := rows.map (fun p => p.2)
    let global_range := listMax intensity - listMin intensity
    let min_height_force := listMin intensity + 1 / 10000 * global_range
    let prominence_force : ℚ := 1 / 1000000
    let peaks := scipy_find_peaks intensity min_height_force 1 prominence_force 1 none none
    let candidates := peaks.map (fun i =>
      ({ wavelength := qget wavelength i, intensity := qget intensity i,
         data_index := i, index := 0 } : FPPeak))
    let selected := assignPeakIndices 0
      ((List.insertionSort fpPeakWlLE candidates).take max_peaks)
    { num_peaks_found := selected.length
      all_peaks := selected
      first_peak := selected[0]?.map (fun p => { wavelength := p.wavelength, intensity := p.intensity })
      third_peak := selected[2]?.map (fun p => { wavelength := p.wavelength, intensity := p.intensity })
      analysis_params := {
        min_height := min_height_force
        min_distance := 1
        prominence_abs := prominence_force
        smoothed := false }
      warning := true }

/-- curve_tools.find_fluorescence_peaks_adaptive (the debug printing of
the source is pure console narration and has no behavioural content):
standard tier first; each more sensitive tier is tried only while the
current count is below max_peaks and replaces the current result only
when it finds strictly more peaks. -/
def find_fluorescence_peaks_adaptive (df : List (ℚ × ℚ)) (max_peaks : ℕ) :
    Except String PeakResults :=
  match find_fluorescence_peaks df max_peaks none 2 (3 / 1000) false 3 with
  | .error e => .error e
  | .ok std =>
    if std.num_peaks_found < max_peaks then
      match find_fluorescence_peaks_sensitive df max_peaks with
      | .error e => .error e
      | .ok sens =>
        let r1 := if std.num_peaks_found < sens.num_peaks_found then sens else std
        if r1.num_peaks_found < max_peaks then
          match find_fluorescence_peaks_ultra_sensitive df max_peaks with
          | .error e => .error e
          | .ok ultra =>
            let r2 := if r1.num_peaks_found < ultra.num_peaks_found then ultra else r1
            if r2.num_peaks_found < max_peaks then
              let force := find_fluorescence_peaks_force_detect df max_peaks
              .ok (if r2.num_peaks_found < force.num_peaks_found then force else r2)
            else .ok r2
        else .ok r1
    else .ok std

/-- One shoulder row of find_true_shoulders_excluding_peaks (the
detection_method and type tags are the same constants on every row and
are not modelled). -/
structure Shoulder where
  wavelength : ℚ
  intensity : ℚ
  prominence : ℚ
  data_index : ℕ
  index : String
  deriving DecidableEq

/-- The result dict of find_true_shoulders_excluding_peaks. -/
structure ShoulderResults where
  num_shoulders_found : ℕ
  all_shoulders : List Shoulder
  excluded_peak_zones : List (ℚ × ℚ)
  traditional_peaks_excluded : ℕ
  deriving DecidableEq

/-- Exclusion-zone membership test (start <= wl <= end for any zone). -/
def inExcludedZone (zones : List (ℚ × ℚ)) (wl : ℚ) : Bool :=
  zones.any (fun z => decide (z.1 ≤ wl ∧ wl ≤ z.2))

/-- The very permissive local-maximum test of the ultra-aggressive
shoulder scan: y[i] at least both neighbours and both next-neighbours. -/
def isLocalMaxPermissive (intensity : List ℚ) (i : ℕ) : Bool :=
  decide (qget intensity (i - 1) ≤ qget intensity i) &&
  decide (qget intensity (i + 1) ≤ qget intensity i) &&
  decide (qget intensity (i - 2) ≤ qget intensity i) &&
  decide (qget intensity (i + 2) ≤ qget intensity i)

/-- Local prominence over the +-5-sample window:
y[i] - min(y[max(0, i-5) : min(n, i+6)]). -/
def localProminence (intensity : List ℚ) (i : ℕ) : ℚ :=
  qget intensity i - sliceMin intensity (i - 5) (min intensity.length (i + 6))

/-- The dedup guard: some already-collected candidate lies closer than 2
wavelength units. -/
def tooClose (cands : List Shoulder) (wl : ℚ) : Bool :=
  cands.any (fun e => decide (abs (wl - e.wavelength) < 2))

/-- The data shared by both scan methods of
find_true_shoulders_excluding_peaks: sorted columns, exclusion zones from
the coarse high-threshold peak pass, and the derived thresholds. -/
structure ShoulderCtx where
  wavelength : List ℚ
  intensity : List ℚ
  zones : List (ℚ × ℚ)
  nTrad : ℕ
  minIntensity : ℚ
  grange : ℚ

/-- Build the scan context of find_true_shoulders_excluding_peaks: the
coarse pass uses height >= min + 20% of range, distance 10, prominence
10% of range, width 2, and each coarse peak spawns the exclusion zone
[peak - 6, peak + 6]. -/
def shoulderCtx (df : List (ℚ × ℚ)) (sensitivity : ℚ) : ShoulderCtx :=
  let rows := sortByX df
  let wavelength := rows.map (fun p => p.1)
  let intensity := rows.map (fun p => p.2)
  let hFloor := listMin intensity + 1 / 5 * (listMax intensity - listMin intensity)
  let pFloor := 1 / 10 * (listMax intensity - listMin intensity)
  let traditional_peaks := scipy_find_peaks intensity hFloor 10 pFloor 2 none none
  let zones := traditional_peaks.map (fun p => (qget wavelength p - 6, qget wavelength p + 6))
  let grange := listMax intensity - listMin intensity
  { wavelength := wavelength
    intensity := intensity
    zones := zones
    nTrad := traditional_peaks.length
    minIntensity := listMin intensity + sensitivity * grange
    grange := grange }

/-- Loop body of the method-1 (ultra-aggressive local maximum) scan: the
guards in source order (exclusion zone, permissive local maximum,
minimum intensity, prominence floor with >=, dedup against the collected
list), appending the surviving candidate. -/
def method1Step (c : ShoulderCtx) (acc : List Shoulder) (i : ℕ) : List Shoulder :=
  if inExcludedZone c.zones (qget c.wavelength i) then acc
  else if isLocalMaxPermissive c.intensity i then
    if c.minIntensity ≤ qget c.intensity i then
      if 1 / 1000 * c.grange ≤ localProminence c.intensity i then
        if tooClose acc (qget c.wavelength i) then acc
        else acc ++ [{ wavelength := qget c.wavelength i, intensity := qget c.intensity i,
                       prominence := localProminence c.intensity i, data_index := i, index := "" }]
      else acc
    else acc
  else acc

/-- Loop body of the method-2 (derivative) scan: exclusion zone, then a
sign change of the smoothed first derivative or a near-zero derivative
(abs fd[i] < 0.1 * np.std fd, decided as 100 * fd[i]^2 < var fd), then
minimum intensity, dedup, and a strict prominence floor. -/
def method2Step (c : ShoulderCtx) (fd : List ℚ) (acc : List Shoulder) (i : ℕ) : List Shoulder :=
  if inExcludedZone c.zones (qget c.wavelength i) then acc
  else if (decide (0 < qget fd (i - 1)) && decide (qget fd (i + 1) < 0)) ||
      decide (100 * (qget fd i) ^ 2 < np_std_sq fd) then
    if c.minIntensity ≤ qget c.intensity i then
      if tooClose acc (qget c.wavelength i) then acc
      else
        let prom := qget c.intensity i - sliceMin c.intensity (i - 5) (min c.intensity.length (i + 6))
        if 1 / 1000 * c.grange < prom then
          acc ++ [{ wavelength := qget c.wavelength i, intensity := qget c.intensity i,
                    prominence := prom, data_index := i, index := "" }]
        else acc
    else acc
  else acc

/-- Relation sorting shoulders by prominence descending (stable, as
Python's reverse=True sort). -/
def shoulderPromGE (a b : Shoulder) : Prop := b.prominence ≤ a.prominence

instance : DecidableRel shoulderPromGE :=
  fun a b => inferInstanceAs (Decidable (b.prominence ≤ a.prominence))

/-- Relation sorting shoulders by wavelength ascending. -/
def shoulderWlLE (a b : Shoulder) : Prop := a.wavelength ≤ b.wavelength

instance : DecidableRel shoulderWlLE :=
  fun a b => inferInstanceAs (Decidable (a.wavelength ≤ b.wavelength))

/-- Assign S1, S2, ... labels (source: shoulder['index'] = f'S{i + 1}'). -/
def assignShoulderIndices : ℕ → List Shoulder → List Shoulder
  | _, [] => []
  | i, s :: ss => { s with index := "S" ++ toString (i + 1) } :: assignShoulderIndices (i + 1) ss

/-- curve_tools.find_true_shoulders_excluding_peaks.  The source wraps
its body in a try/except returning a zero-shoulder dict; for rational
data the body is total except for the degenerate inputs of fewer than 2
rows, where np.gradient raises and the except branch returns the
zero-shoulder dict (modelled by the first branch). -/
def find_true_shoulders_excluding_peaks (df : List (ℚ × ℚ)) (max_features : ℕ)
    (sensitivity : ℚ) : ShoulderResults :=
  if df.length < 2 then
    { num_shoulders_found := 0, all_shoulders := [], excluded_peak_zones := [],
      traditional_peaks_excluded := 0 }
  else
    let c := shoulderCtx df sensitivity
    let n := c.intensity.length
    let smoothed := if 5 ≤ n then savgol_filter c.intensity 5 else c.intensity
    let cands1 := (List.range' 3 (n - 6)).foldl (method1Step c) []
    let fd := np_gradient smoothed c.wavelength
    let cands := (List.range' 5 (fd.length - 10)).foldl (method2Step c fd) cands1
    let selected := (List.insertionSort shoulderPromGE cands).take max_features
    let final := assignShoulderIndices 0 (List.insertionSort shoulderWlLE selected)
    { num_shoulders_found := final.length
      all_shoulders := final
      excluded_peak_zones := c.zones
      traditional_peaks_excluded := c.nTrad }

/-- The detection_type tag of a combined feature. -/
inductive DetectionType
  | traditional_peak
  | shoulder_peak
  | sensitive_shoulder_peak
  deriving DecidableEq

/-- One row of the unified feature list of
find_peaks_and_shoulders_combined (the diagnostic fields copied from the
source dicts - data_index, prominence, original_type, the constant type
tag - are not part of any claim and are not modelled). -/
structure Feature where
  wavelength : ℚ
  intensity : ℚ
  detection_type : DetectionType
  index : ℕ
  display_id : String
  deriving DecidableEq

/-- The result dict of find_peaks_and_shoulders_combined, which is also
the dict SimplePeakTable edits in place. -/
structure CombinedResults where
  num_peaks_found : ℕ
  all_peaks : List Feature
  traditional_peaks_count : ℕ
  shoulder_peaks_count : ℕ
  total_features_detected : ℕ
  first_peak : Option PeakRef
  third_peak : Option PeakRef
  deriving DecidableEq

/-- Relation sorting features by wavelength ascending. -/
def featureWlLE (a b : Feature) : Prop := a.wavelength ≤ b.wavelength

instance : DecidableRel featureWlLE :=
  fun a b => inferInstanceAs (Decidable (a.wavelength ≤ b.wavelength))

instance : IsTotal Feature featureWlLE :=
  ⟨fun a b => le_total a.wavelength b.wavelength⟩

instance : IsTrans Feature featureWlLE :=
  ⟨fun _ _ _ h1 h2 => le_trans h1 h2⟩

/-- Unified numbering step of the merge: feature['index'] = i + 1 and
feature['display_id'] = f'P{i + 1}' down the wavelength-sorted list. -/
def assignFeatureIds : ℕ → List Feature → List Feature
  | _, [] => []
  | i, f :: fs =>
    { f with index := i + 1, display_id := "P" ++ toString (i + 1) } :: assignFeatureIds (i + 1) fs

/-- Build the PeakRef of a feature (first_peak / third_peak shape). -/
def mkRef (f : Feature) : PeakRef := { wavelength := f.wavelength, intensity := f.intensity }

/-- curve_tools.find_peaks_and_shoulders_combined: adaptive peaks (max 8),
shoulders (max 5, sensitivity 0.05), a more sensitive shoulder pass (max
3, sensitivity 0.02) only when the first finds none, then the unified
merge: concatenate, sort by wavelength, number the whole sorted list,
truncate to max_total_peaks. -/
def find_peaks_and_shoulders_combined (df : List (ℚ × ℚ)) (max_total_peaks : ℕ) :
    Except String CombinedResults :=
  match find_fluorescence_peaks_adaptive df 8 with
  | .error e => .error e
  | .ok peak_results =>
    let shoulder_results := find_true_shoulders_excluding_peaks df 5 (1 / 20)
    let feats1 : List Feature := peak_results.all_peaks.map (fun p =>
      { wavelength := p.wavelength, intensity := p.intensity,
        detection_type := .traditional_peak, index := 0, display_id := "" })
    let feats2 : List Feature := shoulder_results.all_shoulders.map (fun s =>
      { wavelength := s.wavelength, intensity := s.intensity,
        detection_type := .shoulder_peak, index := 0, display_id := "" })
    let feats3 : List Feature :=
      if shoulder_results.all_shoulders.length = 0 then
        (find_true_shoulders_excluding_peaks df 3 (1 / 50)).all_shoulders.map (fun s =>
          { wavelength := s.wavelength, intensity := s.intensity,
            detection_type := .sensitive_shoulder_peak, index := 0, display_id := "" })
      else []
    let all_features :=
      assignFeatureIds 0 (List.insertionSort featureWlLE (feats1 ++ feats2 ++ feats3))
    let selected := all_features.take max_total_peaks
    .ok {
      num_peaks_found := selected.length
      all_peaks := selected
      traditional_peaks_count :=
        (selected.filter (fun f => f.detection_type == DetectionType.traditional_peak)).length
      shoulder_peaks_count :=
        (selected.filter (fun f => f.detection_type == DetectionType.shoulder_peak ||
          f.detection_type == DetectionType.sensitive_shoulder_peak)).length
      total_features_detected := all_features.length
      first_peak := selected[0]?.map mkRef
      third_peak := selected[2]?.map mkRef }

/-- Renumbering step of SimplePeakTable._update_peak_references: only
peak['index'] is rewritten; display_id is left untouched. -/
def assignFeatureIndicesOnly : ℕ → List Feature → List Feature
  | _, [] => []
  | i, f :: fs => { f with index := i + 1 } :: assignFeatureIndicesOnly (i + 1) fs

/-- peak_analysis_dialog.SimplePeakTable._update_peak_references: reset
first_peak/third_peak, renumber index down the remaining list, and set
the references from the new positions 0 and 2. -/
def update_peak_references (r : CombinedResults) : CombinedResults :=
  let peaks := assignFeatureIndicesOnly 0 r.all_peaks
  { r with
    all_peaks := peaks
    first_peak := peaks[0]?.map mkRef
    third_peak := peaks[2]?.map mkRef }

/-- peak_analysis_dialog.SimplePeakTable._remove_peak: with a row index
in [0, len), pop the row, refresh num_peaks_found, and update the
references; otherwise do nothing (the table refresh and the Qt signal
are UI side effects outside the data model). -/
def remove_peak (r : CombinedResults) (row_index : ℤ) : CombinedResults :=
  if 0 ≤ row_index ∧ row_index < (r.all_peaks.length : ℤ) then
    let peaks := r.all_peaks.eraseIdx row_index.toNat
    update_peak_references { r with all_peaks := peaks, num_peaks_found := peaks.length }
  else r

instance {ε α : Type} [DecidableEq ε] [DecidableEq α] : DecidableEq (Except ε α) := fun x y =>
  match x, y with
  | .error a, .error b => if h : a = b then isTrue (by rw [h]) else isFalse (by simp [h])
  | .ok a, .ok b => if h : a = b then isTrue (by rw [h]) else isFalse (by simp [h])
  | .error _, .ok _ => isFalse (by simp)
  | .ok _, .error _ => isFalse (by simp)

/-- Method-1 candidate qualification of the ultra-aggressive shoulder
scan at sample `i` (the source loop's guards except the dedup against
earlier candidates): outside every exclusion zone, a permissive local
maximum, at least the minimum intensity, and at least the prominence
floor. -/
def method1Qualifies (df : List (ℚ × ℚ)) (sensitivity : ℚ) (i : ℕ) : Prop :=
  let c := shoulderCtx df sensitivity
  inExcludedZone c.zones (qget c.wavelength i) = false ∧
  isLocalMaxPermissive c.intensity i = true ∧
  c.minIntensity ≤ qget c.intensity i ∧
  1 / 1000 * c.grange ≤ localProminence c.intensity i

instance (df : List (ℚ × ℚ)) (s : ℚ) (i : ℕ) : Decidable (method1Qualifies df s i) := by
  unfold method1Qualifies
  exact inferInstance

/-- The identity of a combined feature apart from its mutable rank
index: wavelength, intensity, provenance tag and display label. -/
def featureCore (f : Feature) : ℚ × ℚ × DetectionType × String :=
  (f.wavelength, f.intensity, f.detection_type, f.display_id)

/-- A flat ten-sample curve (x = 0..9, y = 7). -/
def flatDf : List (ℚ × ℚ) := (List.range 10).map (fun i => ((i : ℚ), 7))

/-- Ten samples with a single sharp spike at x = 4. -/
def spikeDf : List (ℚ × ℚ) :=
  [(0, 0), (1, 0), (2, 0), (3, 0), (4, 35), (5, 0), (6, 0), (7, 0), (8, 0), (9, 0)]

/-- Eight samples (below the ten-sample validation floor) with a narrow
spike at x = 3. -/
def df8 : List (ℚ × ℚ) := [(0, 0), (1, 0), (2, 0), (3, 10), (4, 0), (5, 0), (6, 0), (7, 0)]

/-- A curve whose shoulder scan meets two qualifying local maxima less
than 2 wavelength units apart (x = 3 and x = 4.5) where the later one
has the larger local prominence; the right-edge rise to 100 sets the
intensity range without adding a local maximum. -/
def dfC8 : List (ℚ × ℚ) :=
  [(0, 0), (1, 0), (2, 1), (3, 5), (4, 0), (21 / 5, 0), (9 / 2, 8), (6, 0), (7, 0), (8, 100)]

/-- A wide peak at x = 2 (which the coarse shoulder-exclusion pass
accepts, creating the zone [-4, 8]) plus a small bump at x = 20 outside
the zone. -/
def c4Df : List (ℚ × ℚ) :=
  [(0, 0), (1, 30), (2, 60), (3, 30), (4, 0), (5, 0), (20, 5), (21, 0), (22, 0), (23, 0)]

/-- A well-formed merged feature set (wavelength-sorted, display ids
P1..P3) used to exercise the interactive removal operation. -/
def sampleResults : CombinedResults :=
  { num_peaks_found := 3
    all_peaks := [
      { wavelength := 300, intensity := 800, detection_type := .traditional_peak,
        index := 1, display_id := "P1" },
      { wavelength := 350, intensity := 150, detection_type := .shoulder_peak,
        index := 2, display_id := "P2" },
      { wavelength := 400, intensity := 500, detection_type := .traditional_peak,
        index := 3, display_id := "P3" }]
    traditional_peaks_count := 2
    shoulder_peaks_count := 1
    total_features_detected := 3
    first_peak := some { wavelength := 300, intensity := 800 }
    third_peak := some { wavelength := 400, intensity := 500 } }

/-- The standard-tier result of find_fluorescence_peaks on c4Df (two
peaks already at tiers standard, so the adaptive cascade keeps it). -/
def c4PeakResults : PeakResults :=
  { num_peaks_found := 2
    all_peaks := [
      { wavelength := 2, intensity := 60, data_index := 2, index := 1 },
      { wavelength := 20, intensity := 5, data_index := 6, index := 2 }]
    first_peak := some { wavelength := 2, intensity := 60 }
    third_peak := none
    analysis_params :=
      { min_height := 3 / 10, min_distance := 2, prominence_abs := 9 / 50, smoothed := false }
    warning := false }

/-- The result of the unified merge on c4Df with max_total_peaks 3. -/
def c4CombinedRes : CombinedResults :=
  { num_peaks_found := 3
    all_peaks := [
      { wavelength := 2, intensity := 60, detection_type := .traditional_peak,
        index := 1, display_id := "P1" },
      { wavelength := 20, intensity := 5, detection_type := .traditional_peak,
        index := 2, display_id := "P2" },
      { wavelength := 20, intensity := 5, detection_type := .shoulder_peak,
        index := 3, display_id := "P3" }]
    traditional_peaks_count := 2
    shoulder_peaks_count := 1
    total_features_detected := 3
    first_peak := some { wavelength := 2, intensity := 60 }
    third_peak := some { wavelength := 20, intensity := 5 } }

/-- The result of find_fluorescence_peaks on the flat curve with the
default parameters: zero peaks, but prominence floor 1e-6. -/
def flatPeakResults : PeakResults :=
  { num_peaks_found := 0
    all_peaks := []
    first_peak := none
    third_peak := none
    analysis_params :=
      { min_height := 7, min_distance := 2, prominence_abs := 1 / 1000000, smoothed := false }
    warning := false }

/-- The result of find_fluorescence_peaks on spikeDf with smoothing on
(window 5): the reported intensity 17 is the smoothed value at sample 4,
not the original 35. -/
def spikePeakResults : PeakResults :=
  { num_peaks_found := 1
    all_peaks := [{ wavelength := 4, intensity := 17, data_index := 4, index := 1 }]
    first_peak := some { wavelength := 4, intensity := 17 }
    third_peak := none
    analysis_params :=
      { min_height := -399 / 100, min_distance := 2, prominence_abs := 33 / 500, smoothed := true }
    warning := false }

theorem assignFeatureIds_getElem? (fs : List Feature) (j k : ℕ) :
    (assignFeatureIds j fs)[k]? = fs[k]?.map
      (fun f => { f with index := j + k + 1, display_id := "P" ++ toString (j + k + 1) }) := by
  induction fs generalizing j k with
  | nil => simp [assignFeatureIds]
  | cons f fs ih =>
    cases k with
    | zero => simp [assignFeatureIds]
    | succ k =>
      simp only [assignFeatureIds, List.getElem?_cons_succ, ih (j + 1) k]
      have : j + 1 + k = j + (k + 1) := by omega
      rw [this]

theorem assignFeatureIds_map_wl (fs : List Feature) (j : ℕ) :
    (assignFeatureIds j fs).map Feature.wavelength = fs.map Feature.wavelength := by
  induction fs generalizing j with
  | nil => rfl
  | cons f fs ih => simp [assignFeatureIds, ih]

theorem assignFeatureIds_length (fs : List Feature) (j : ℕ) :
    (assignFeatureIds j fs).length = fs.length := by
  induction fs generalizing j with
  | nil => rfl
  | cons f fs ih => simp [assignFeatureIds, ih]

theorem assignFeatureIndicesOnly_getElem? (fs : List Feature) (j k : ℕ) :
    (assignFeatureIndicesOnly j fs)[k]? = fs[k]?.map (fun f => { f with index := j + k + 1 }) := by
  induction fs generalizing j k with
  | nil => simp [assignFeatureIndicesOnly]
  | cons f fs ih =>
    cases k with
    | zero => simp [assignFeatureIndicesOnly]
    | succ k =>
      simp only [assignFeatureIndicesOnly, List.getElem?_cons_succ, ih (j + 1) k]
      have : j + 1 + k = j + (k + 1) := by omega
      rw [this]

theorem assignFeatureIndicesOnly_map_wl (fs : List Feature) (j : ℕ) :
    (assignFeatureIndicesOnly j fs).map Feature.wavelength = fs.map Feature.wavelength := by
  induction fs generalizing j with
  | nil => rfl
  | cons f fs ih => simp [assignFeatureIndicesOnly, ih]

theorem assignFeatureIndicesOnly_map_core (fs : List Feature) (j : ℕ) :
    (assignFeatureIndicesOnly j fs).map featureCore = fs.map featureCore := by
  induction fs generalizing j with
  | nil => rfl
  | cons f fs ih => simp [assignFeatureIndicesOnly, ih, featureCore]

theorem assignFeatureIndicesOnly_length (fs : List Feature) (j : ℕ) :
    (assignFeatureIndicesOnly j fs).length = fs.length := by
  induction fs generalizing j with
  | nil => rfl
  | cons f fs ih => simp [assignFeatureIndicesOnly, ih]

theorem assignShoulderIndices_map_wl (l : List Shoulder) (j : ℕ) :
    (assignShoulderIndices j l).map Shoulder.wavelength = l.map Shoulder.wavelength := by
  induction l generalizing j with
  | nil => rfl
  | cons s l ih => simp [assignShoulderIndices, ih]

theorem assignPeakIndices_mem (p : FPPeak) (l : List FPPeak) (j : ℕ)
    (h : p ∈ assignPeakIndices j l) :
    ∃ q ∈ l, p.wavelength = q.wavelength ∧ p.intensity = q.intensity ∧
      p.data_index = q.data_index := by
  induction l generalizing j with
  | nil => simp [assignPeakIndices] at h
  | cons q l ih =>
    simp only [assignPeakIndices, List.mem_cons] at h
    rcases h with h | h
    · exact ⟨q, List.mem_cons_self q l, by simp [h]⟩
    · obtain ⟨q2, hq2, hfields⟩ := ih (j + 1) h
      exact ⟨q2, List.mem_cons_of_mem q hq2, hfields⟩

theorem foldl_mem_invariant {β : Type} (P : Shoulder → Prop) (f : List Shoulder → β → List Shoulder)
    (hf : ∀ acc b s, s ∈ f acc b → s ∈ acc ∨ P s) :
    ∀ (L : List β) (acc : List Shoulder), (∀ s ∈ acc, P s) → ∀ s ∈ L.foldl f acc, P s := by
  intro L
  induction L with
  | nil => intro acc hacc s hs; exact hacc s hs
  | cons b L ih =>
    intro acc hacc s hs
    refine ih (f acc b) ?_ s hs
    intro t ht
    rcases hf acc b t ht with h | h
    · exact hacc t h
    · exact h

theorem foldl_invariant {α β : Type} (Q : α → Prop) (f : α → β → α)
    (hf : ∀ a b, Q a → Q (f a b)) :
    ∀ (L : List β) (a : α), Q a → Q (L.foldl f a) := by
  intro L
  induction L with
  | nil => intro a ha; exact ha
  | cons b L ih => intro a ha; exact ih (f a b) (hf a b ha)


set_option maxRecDepth 40000

/-- C10: invoking the remove-feature operation with a position outside
[0, N) leaves the feature set completely unchanged - no entry is
deleted, the found count and the first/third references keep their prior
values - and no error is raised. -/
theorem C10_remove_out_of_range (r : CombinedResults) (k : ℤ)
    (h : k < 0 ∨ (r.all_peaks.length : ℤ) ≤ k) : remove_peak r k = r := by
  unfold remove_peak
  rw [if_neg]
  rintro ⟨h1, h2⟩
  rcases h with h | h <;> omega

theorem C10_witness :
    remove_peak sampleResults (-1) = sampleResults ∧
    remove_peak sampleResults 5 = sampleResults :=
  ⟨C10_remove_out_of_range sampleResults (-1) (Or.inl (by decide)),
   C10_remove_out_of_range sampleResults 5 (Or.inr (by with_unfolding_all decide))⟩

/-- C9 counterexample: on the flat curve (zero intensity range) the
prominence floor actually used is the absolute constant 1e-6, while the
claimed formula max(fraction * range, 1e-6 * range) gives 0. -/
theorem C9_counterexample :
    ((find_fluorescence_peaks flatDf 3 none 2 (3 / 1000) false 3).toOption.map
      (fun r => r.analysis_params.prominence_abs)) = some (1 / 1000000) ∧
    ((1 : ℚ) / 1000000) ≠
      max ((3 / 1000) *
          (listMax (flatDf.map (fun p => p.2)) - listMin (flatDf.map (fun p => p.2))))
        ((1 / 1000000) *
          (listMax (flatDf.map (fun p => p.2)) - listMin (flatDf.map (fun p => p.2)))) := by
  constructor
  · with_unfolding_all rfl
  · with_unfolding_all decide

/-- C9 (amended): the absolute prominence floor used by
find_fluorescence_peaks equals the tier prominence fraction times the
intensity range with an absolute lower bound of 1e-6 (not 1e-6 of the
range): floor = max(fraction * range, 1e-6). -/
theorem C9_prominence_floor (df : List (ℚ × ℚ)) (mp : ℕ) (mh : Option ℚ) (md : ℕ)
    (pr : ℚ) (sm : Bool) (w : ℕ) (r : PeakResults)
    (h : find_fluorescence_peaks df mp mh md pr sm w = .ok r) :
    r.analysis_params.prominence_abs =
      max (pr * (listMax (fpSmooth ((sortByX df).map (fun p => p.2)) sm w) -
            listMin (fpSmooth ((sortByX df).map (fun p => p.2)) sm w)))
        (1 / 1000000) := by
  unfold find_fluorescence_peaks at h
  split at h
  · exact absurd h (by simp)
  · split at h
    · exact absurd h (by simp)
    · simp only [Except.ok.injEq] at h
      subst h
      rfl

theorem C9_witness :
    find_fluorescence_peaks flatDf 3 none 2 (3 / 1000) false 3 = .ok flatPeakResults ∧
    flatPeakResults.analysis_params.prominence_abs =
      max ((3 / 1000) * (listMax (fpSmooth ((sortByX flatDf).map (fun p => p.2)) false 3) -
            listMin (fpSmooth ((sortByX flatDf).map (fun p => p.2)) false 3)))
        (1 / 1000000) :=
  ⟨by with_unfolding_all rfl,
   C9_prominence_floor flatDf 3 none 2 (3 / 1000) false 3 flatPeakResults
     (by with_unfolding_all rfl)⟩

/-- C5 counterexample: on a flat ten-sample curve the shoulder detector
does not return zero features - every threshold degenerates to zero and
the non-strict comparisons admit two zero-prominence shoulders. -/
theorem C5_counterexample :
    (find_true_shoulders_excluding_peaks flatDf 5 (1 / 20)).num_shoulders_found = 2 ∧
    (2 : ℕ) ≠ 0 := by
  constructor
  · with_unfolding_all rfl
  · decide

theorem qget_of_const (ys : List ℚ) (c : ℚ) (hc : ∀ v ∈ ys, v = c) (j : ℕ)
    (hj : j < ys.length) : qget ys j = c := by
  unfold qget
  rw [List.getD_eq_getElem?_getD, List.getElem?_eq_getElem hj]
  exact hc _ (List.getElem_mem hj)

theorem localMaximaAux_const (ys : List ℚ) (c : ℚ) (hc : ∀ v ∈ ys, v = c) :
    ∀ fuel i, localMaximaAux ys (ys.length - 1) fuel i = [] := by
  intro fuel
  induction fuel with
  | zero => intro i; rfl
  | succ fuel ih =>
    intro i
    unfold localMaximaAux
    by_cases hi : i < ys.length - 1
    · rw [if_pos hi, if_neg, ih]
      have h1 : qget ys (i - 1) = c := qget_of_const ys c hc _ (by omega)
      have h2 : qget ys i = c := qget_of_const ys c hc _ (by omega)
      rw [h1, h2]
      exact lt_irrefl c
    · rw [if_neg hi]

theorem scipy_local_maxima_const (ys : List ℚ) (c : ℚ) (hc : ∀ v ∈ ys, v = c) :
    scipy_local_maxima ys = [] :=
  localMaximaAux_const ys c hc ys.length 1

theorem scipy_find_peaks_of_no_maxima (ys : List ℚ) (h0 : scipy_local_maxima ys = [])
    (h : ℚ) (d : ℕ) (p w : ℚ) (pl wlen : Option ℕ) :
    scipy_find_peaks ys h d p w pl wlen = [] := by
  unfold scipy_find_peaks
  rw [h0]
  cases pl <;>
    simp [filterByKeep, scipy_select_by_peak_distance, argsortAsc, selectByDistanceLoop]

theorem fpSmooth_false (ys : List ℚ) (w : ℕ) : fpSmooth ys false w = ys := by
  simp [fpSmooth]

/-- C5 (amended): on every constant-intensity curve with at least ten
samples the peak detector returns a result with zero peaks and no error;
the shoulder detector also raises no error, but does not return zero
features - on the flat ten-sample curve it reports two shoulder
candidates. -/
theorem C5_flat_curve :
    (∀ (df : List (ℚ × ℚ)) (c : ℚ), 10 ≤ df.length → (∀ p ∈ df, p.2 = c) →
      ∃ r, find_fluorescence_peaks df 3 none 2 (3 / 1000) false 3 = .ok r ∧
        r.num_peaks_found = 0 ∧ r.all_peaks = []) ∧
    (find_true_shoulders_excluding_peaks flatDf 5 (1 / 20)).num_shoulders_found = 2 := by
  constructor
  · intro df c hlen hflat
    have hys : ∀ v ∈ (sortByX df).map (fun p => p.2), v = c := by
      intro v hv
      rw [List.mem_map] at hv
      obtain ⟨q, hq, hqv⟩ := hv
      have hq2 : q ∈ df := (List.perm_insertionSort _ df).mem_iff.mp hq
      rw [← hqv]
      exact hflat q hq2
    have hloc : scipy_local_maxima ((sortByX df).map (fun p => p.2)) = [] :=
      scipy_local_maxima_const _ c hys
    unfold find_fluorescence_peaks
    rw [if_neg (by omega), if_neg (by omega)]
    simp only [fpSmooth_false]
    rw [scipy_find_peaks_of_no_maxima _ hloc]
    exact ⟨_, rfl, rfl, rfl⟩
  · with_unfolding_all rfl

theorem C5_witness :
    10 ≤ flatDf.length ∧
    (∃ r, find_fluorescence_peaks flatDf 3 none 2 (3 / 1000) false 3 = .ok r ∧
      r.num_peaks_found = 0 ∧ r.all_peaks = []) :=
  ⟨by decide, C5_flat_curve.1 flatDf 7 (by decide) (by with_unfolding_all decide)⟩

/-- C7 (amended): every curve with fewer than ten samples makes the peak
detector return a validation error; the shoulder detector on such data
raises no error but may return a nonzero number of features (it performs
no minimum-sample validation) - on the eight-sample spike curve it
returns one feature. -/
theorem C7_small_curve :
    (∀ (df : List (ℚ × ℚ)) (mp : ℕ) (mh : Option ℚ) (md : ℕ) (pr : ℚ) (sm : Bool) (w : ℕ),
      df.length < 10 →
      ∃ e, find_fluorescence_peaks df mp mh md pr sm w = .error e) ∧
    (find_true_shoulders_excluding_peaks df8 5 (1 / 20)).num_shoulders_found = 1 := by
  constructor
  · intro df mp mh md pr sm w hlen
    unfold find_fluorescence_peaks
    by_cases h0 : df.length = 0
    · exact ⟨_, by rw [if_pos h0]⟩
    · exact ⟨_, by rw [if_neg h0, if_pos (by omega)]⟩
  · with_unfolding_all rfl

/-- C7 counterexample: on the same eight-sample data the shoulder
detector neither raises nor returns zero features - it returns one. -/
theorem C7_counterexample :
    find_fluorescence_peaks df8 3 none 2 (3 / 1000) false 3 =
      .error "Not enough data points for peak analysis (minimum 10 required)" ∧
    (find_true_shoulders_excluding_peaks df8 5 (1 / 20)).num_shoulders_found = 1 ∧
    (1 : ℕ) ≠ 0 := by
  refine ⟨?_, ?_, ?_⟩
  · with_unfolding_all rfl
  · with_unfolding_all rfl
  · decide

theorem C7_witness :
    df8.length < 10 ∧
    (∃ e, find_fluorescence_peaks df8 3 none 2 (3 / 1000) false 3 = .error e) :=
  ⟨by decide, C7_small_curve.1 df8 3 none 2 (3 / 1000) false 3 (by decide)⟩

/-- C8 counterexample: on dfC8 both sample 3 (wavelength 3, local
prominence 5) and sample 6 (wavelength 4.5, local prominence 8) pass
every individual shoulder test, they lie 1.5 < 2 units apart, the later
one has the strictly higher prominence, yet the result retains only the
earlier, lower-prominence candidate at wavelength 3. -/
theorem C8_counterexample :
    method1Qualifies dfC8 (1 / 20) 3 ∧ method1Qualifies dfC8 (1 / 20) 6 ∧
    abs (qget (shoulderCtx dfC8 (1 / 20)).wavelength 6 -
      qget (shoulderCtx dfC8 (1 / 20)).wavelength 3) < 2 ∧
    localProminence (shoulderCtx dfC8 (1 / 20)).intensity 3 <
      localProminence (shoulderCtx dfC8 (1 / 20)).intensity 6 ∧
    (find_true_shoulders_excluding_peaks dfC8 5 (1 / 20)).all_shoulders.map
      Shoulder.wavelength = [3] := by
  refine ⟨?_, ?_, ?_, ?_, ?_⟩ <;> with_unfolding_all decide

theorem tooClose_false_sep (cands : List Shoulder) (wl : ℚ) (h : tooClose cands wl = false) :
    ∀ e ∈ cands, 2 ≤ abs (wl - e.wavelength) := by
  intro e he
  unfold tooClose at h
  rw [List.any_eq_false] at h
  have h2 := h e he
  simp only [decide_eq_true_eq] at h2
  exact not_lt.mp h2

/-- Normal form of the method-1 loop body: the source's early-exit
nested guards, all of whose else branches leave the accumulator
untouched, collapse to one conjunction guarding the append. -/
theorem method1Step_eq (c : ShoulderCtx) (acc : List Shoulder) (i : ℕ) :
    method1Step c acc i =
      if inExcludedZone c.zones (qget c.wavelength i) = false ∧
          isLocalMaxPermissive c.intensity i = true ∧
          c.minIntensity ≤ qget c.intensity i ∧
          1 / 1000 * c.grange ≤ localProminence c.intensity i ∧
          tooClose acc (qget c.wavelength i) = false then
        acc ++ [{ wavelength := qget c.wavelength i, intensity := qget c.intensity i,
                  prominence := localProminence c.intensity i, data_index := i, index := "" }]
      else acc := by
  unfold method1Step
  split_ifs <;> simp_all
  rename_i hlt hconj
  exact absurd hconj.2.2.2.1 (not_le.mpr hlt)

/-- Normal form of the method-2 loop body. -/
theorem method2Step_eq (c : ShoulderCtx) (fd : List ℚ) (acc : List Shoulder) (i : ℕ) :
    method2Step c fd acc i =
      if inExcludedZone c.zones (qget c.wavelength i) = false ∧
          ((decide (0 < qget fd (i - 1)) && decide (qget fd (i + 1) < 0)) ||
            decide (100 * (qget fd i) ^ 2 < np_std_sq fd)) = true ∧
          c.minIntensity ≤ qget c.intensity i ∧
          tooClose acc (qget c.wavelength i) = false ∧
          1 / 1000 * c.grange <
            qget c.intensity i - sliceMin c.intensity (i - 5) (min c.intensity.length (i + 6)) then
        acc ++ [{ wavelength := qget c.wavelength i, intensity := qget c.intensity i,
                  prominence := qget c.intensity i -
                    sliceMin c.intensity (i - 5) (min c.intensity.length (i + 6)),
                  data_index := i, index := "" }]
      else acc := by
  simp only [method2Step]
  split_ifs <;> simp_all
  rename_i hle hconj
  rcases hconj with ⟨-, -, -, -, h5⟩
  linarith

theorem method1Step_pairwise (c : ShoulderCtx) (acc : List Shoulder) (i : ℕ)
    (h : List.Pairwise (fun a b : Shoulder => 2 ≤ abs (a.wavelength - b.wavelength)) acc) :
    List.Pairwise (fun a b : Shoulder => 2 ≤ abs (a.wavelength - b.wavelength))
      (method1Step c acc i) := by
  rw [method1Step_eq]
  split_ifs with hc
  · rw [List.pairwise_append]
    refine ⟨h, List.pairwise_singleton _ _, ?_⟩
    intro a ha b hb
    rw [List.mem_singleton] at hb
    subst hb
    have h6 := tooClose_false_sep acc (qget c.wavelength i) hc.2.2.2.2 a ha
    rw [abs_sub_comm] at h6
    exact h6
  · exact h

theorem method2Step_pairwise (c : ShoulderCtx) (fd : List ℚ) (acc : List Shoulder) (i : ℕ)
    (h : List.Pairwise (fun a b : Shoulder => 2 ≤ abs (a.wavelength - b.wavelength)) acc) :
    List.Pairwise (fun a b : Shoulder => 2 ≤ abs (a.wavelength - b.wavelength))
      (method2Step c fd acc i) := by
  rw [method2Step_eq]
  split_ifs with hc
  · rw [List.pairwise_append]
    refine ⟨h, List.pairwise_singleton _ _, ?_⟩
    intro a ha b hb
    rw [List.mem_singleton] at hb
    subst hb
    have h6 := tooClose_false_sep acc (qget c.wavelength i) hc.2.2.2.1 a ha
    rw [abs_sub_comm] at h6
    exact h6
  · exact h

theorem pairwise_sep_assignShoulderIndices (l : List Shoulder) (j : ℕ)
    (h : List.Pairwise (fun a b : Shoulder => 2 ≤ abs (a.wavelength - b.wavelength)) l) :
    List.Pairwise (fun a b : Shoulder => 2 ≤ abs (a.wavelength - b.wavelength))
      (assignShoulderIndices j l) := by
  have h2 : List.Pairwise (fun a b : ℚ => 2 ≤ abs (a - b)) (l.map Shoulder.wavelength) :=
    List.pairwise_map.mpr (h.imp (fun hab => hab))
  have h3 : List.Pairwise (fun a b : ℚ => 2 ≤ abs (a - b))
      ((assignShoulderIndices j l).map Shoulder.wavelength) := by
    rw [assignShoulderIndices_map_wl]
    exact h2
  exact (List.pairwise_map.mp h3).imp (fun hab => hab)

/-- C8 (amended): a candidate scanned while an already-collected
candidate lies closer than 2 wavelength units is discarded regardless of
its prominence - the earlier-scanned candidate is the one retained - so
the features of every shoulder result are pairwise at least 2 wavelength
units apart. -/
theorem C8_retained_separation (df : List (ℚ × ℚ)) (maxf : ℕ) (sens : ℚ) :
    List.Pairwise (fun a b : Shoulder => 2 ≤ abs (a.wavelength - b.wavelength))
      (find_true_shoulders_excluding_peaks df maxf sens).all_shoulders := by
  unfold find_true_shoulders_excluding_peaks
  split_ifs with hlen
  · simp
  · dsimp only
    apply pairwise_sep_assignShoulderIndices
    have hsym : ∀ {x y : Shoulder},
        (fun a b : Shoulder => 2 ≤ abs (a.wavelength - b.wavelength)) x y →
        (fun a b : Shoulder => 2 ≤ abs (a.wavelength - b.wavelength)) y x := by
      intro x y hxy
      show 2 ≤ abs (y.wavelength - x.wavelength)
      rw [abs_sub_comm]
      exact hxy
    rw [((List.perm_insertionSort shoulderWlLE _).pairwise_iff hsym)]
    refine List.Pairwise.sublist (List.take_sublist _ _) ?_
    rw [((List.perm_insertionSort shoulderPromGE _).pairwise_iff hsym)]
    refine foldl_invariant _ _ (fun acc b hacc => method2Step_pairwise _ _ acc b hacc) _ _ ?_
    refine foldl_invariant _ _ (fun acc b hacc => method1Step_pairwise _ acc b hacc) _ _ ?_
    exact List.Pairwise.nil

theorem inExcludedZone_false (zones : List (ℚ × ℚ)) (wl : ℚ)
    (h : inExcludedZone zones wl = false) (z : ℚ × ℚ) (hz : z ∈ zones) :
    ¬(z.1 ≤ wl ∧ wl ≤ z.2) := by
  unfold inExcludedZone at h
  rw [List.any_eq_false] at h
  have h2 := h z hz
  simpa using h2

theorem method1Step_mem (c : ShoulderCtx) (acc : List Shoulder) (i : ℕ) (s : Shoulder)
    (h : s ∈ method1Step c acc i) :
    s ∈ acc ∨ inExcludedZone c.zones s.wavelength = false := by
  rw [method1Step_eq] at h
  split_ifs at h with hc
  · rw [List.mem_append, List.mem_singleton] at h
    rcases h with h | h
    · exact Or.inl h
    · subst h
      exact Or.inr hc.1
  · exact Or.inl h

theorem method2Step_mem (c : ShoulderCtx) (fd : List ℚ) (acc : List Shoulder) (i : ℕ)
    (s : Shoulder) (h : s ∈ method2Step c fd acc i) :
    s ∈ acc ∨ inExcludedZone c.zones s.wavelength = false := by
  rw [method2Step_eq] at h
  split_ifs at h with hc
  · rw [List.mem_append, List.mem_singleton] at h
    rcases h with h | h
    · exact Or.inl h
    · subst h
      exact Or.inr hc.1
  · exact Or.inl h

/-- C4: every shoulder in the result of
find_true_shoulders_excluding_peaks has a wavelength outside every
exclusion zone [p - 6, p + 6] recorded from the coarse high-threshold
peak pass (and when that pass finds no peaks the zone list is empty, so
nothing is excluded). -/
theorem C4_shoulders_outside_zones (df : List (ℚ × ℚ)) (maxf : ℕ) (sens : ℚ)
    (s : Shoulder) (z : ℚ × ℚ)
    (hs : s ∈ (find_true_shoulders_excluding_peaks df maxf sens).all_shoulders)
    (hz : z ∈ (find_true_shoulders_excluding_peaks df maxf sens).excluded_peak_zones) :
    ¬(z.1 ≤ s.wavelength ∧ s.wavelength ≤ z.2) := by
  unfold find_true_shoulders_excluding_peaks at hs hz
  split_ifs at hs hz with hlen
  · simp at hs
  · dsimp only at hs hz
    have hw := List.mem_map_of_mem Shoulder.wavelength hs
    rw [assignShoulderIndices_map_wl, List.mem_map] at hw
    obtain ⟨t, ht, htw⟩ := hw
    have ht2 := (List.perm_insertionSort shoulderWlLE _).mem_iff.mp ht
    have ht3 := List.mem_of_mem_take ht2
    have ht4 := (List.perm_insertionSort shoulderPromGE _).mem_iff.mp ht3
    have hP : inExcludedZone (shoulderCtx df sens).zones t.wavelength = false := by
      refine foldl_mem_invariant
        (fun u => inExcludedZone (shoulderCtx df sens).zones u.wavelength = false)
        (method2Step (shoulderCtx df sens) _)
        (fun acc b u hu => method2Step_mem _ _ acc b u hu) _ _ ?_ t ht4
      intro u hu
      refine foldl_mem_invariant
        (fun v => inExcludedZone (shoulderCtx df sens).zones v.wavelength = false)
        (method1Step (shoulderCtx df sens))
        (fun acc b v hv => method1Step_mem _ acc b v hv) _ _ ?_ u hu
      intro v hv
      simp at hv
    rw [← htw]
    exact inExcludedZone_false _ _ hP z hz

theorem C4_witness :
    ({ wavelength := 20, intensity := 5, prominence := 5, data_index := 6,
        index := "S1" } : Shoulder) ∈
      (find_true_shoulders_excluding_peaks c4Df 5 (1 / 20)).all_shoulders ∧
    ((-4 : ℚ), (8 : ℚ)) ∈
      (find_true_shoulders_excluding_peaks c4Df 5 (1 / 20)).excluded_peak_zones ∧
    ¬(((-4 : ℚ), (8 : ℚ)).1 ≤ (20 : ℚ) ∧ (20 : ℚ) ≤ ((-4 : ℚ), (8 : ℚ)).2) :=
  ⟨by with_unfolding_all decide, by with_unfolding_all decide,
   C4_shoulders_outside_zones c4Df 5 (1 / 20)
     { wavelength := 20, intensity := 5, prominence := 5, data_index := 6, index := "S1" }
     ((-4 : ℚ), (8 : ℚ))
     (by with_unfolding_all decide) (by with_unfolding_all decide)⟩

/-- C6 counterexample: with smoothing enabled (window 5) the spike curve
is reported with intensity 17 at sample 4 - the smoothed value - while
the original, unsmoothed intensity at that sample is 35. -/
theorem C6_counterexample :
    ((find_fluorescence_peaks spikeDf 3 none 2 (3 / 1000) true 5).toOption.map
      (fun r => r.all_peaks.map (fun p => (p.intensity, p.data_index)))) = some [(17, 4)] ∧
    qget ((sortByX spikeDf).map (fun q => q.2)) 4 = 35 ∧ ((17 : ℚ)) ≠ 35 := by
  refine ⟨?_, ?_, ?_⟩
  · with_unfolding_all rfl
  · with_unfolding_all rfl
  · with_unfolding_all decide

/-- C6 (amended): each reported peak's intensity (and wavelength) is read
from the signal actually used for detection at the peak's sample index -
the smoothed signal when smoothing was applied - not from the original
intensities. -/
theorem C6_reported_from_used_signal (df : List (ℚ × ℚ)) (mp : ℕ) (mh : Option ℚ) (md : ℕ)
    (pr : ℚ) (sm : Bool) (w : ℕ) (r : PeakResults)
    (h : find_fluorescence_peaks df mp mh md pr sm w = .ok r) :
    ∀ p ∈ r.all_peaks,
      p.intensity = qget (fpSmooth ((sortByX df).map (fun q => q.2)) sm w) p.data_index ∧
      p.wavelength = qget ((sortByX df).map (fun q => q.1)) p.data_index := by
  unfold find_fluorescence_peaks at h
  split at h
  · exact absurd h (by simp)
  · split at h
    · exact absurd h (by simp)
    · simp only [Except.ok.injEq] at h
      subst h
      intro p hp
      dsimp only at hp
      obtain ⟨q, hq, hw, hi, hd⟩ := assignPeakIndices_mem p _ 0 hp
      have hq2 := List.mem_of_mem_take hq
      have hq3 := (List.perm_insertionSort fpPeakWlLE _).mem_iff.mp hq2
      rw [List.mem_map] at hq3
      obtain ⟨idx, hidx, hqe⟩ := hq3
      constructor
      · rw [hi, hd, ← hqe]
      · rw [hw, hd, ← hqe]

theorem C6_witness :
    find_fluorescence_peaks spikeDf 3 none 2 (3 / 1000) true 5 = .ok spikePeakResults ∧
    ({ wavelength := 4, intensity := 17, data_index := 4, index := 1 } : FPPeak).intensity =
      qget (fpSmooth ((sortByX spikeDf).map (fun q => q.2)) true 5)
        ({ wavelength := 4, intensity := 17, data_index := 4, index := 1 } : FPPeak).data_index :=
  ⟨by with_unfolding_all rfl,
   (C6_reported_from_used_signal spikeDf 3 none 2 (3 / 1000) true 5 spikePeakResults
     (by with_unfolding_all rfl)
     { wavelength := 4, intensity := 17, data_index := 4, index := 1 }
     (by with_unfolding_all decide)).1⟩

theorem cascade_pick (a b : PeakResults) :
    a.num_peaks_found ≤ (if a.num_peaks_found < b.num_peaks_found then b else a).num_peaks_found ∧
    ((if a.num_peaks_found < b.num_peaks_found then b else a) = a ∨
      a.num_peaks_found <
        (if a.num_peaks_found < b.num_peaks_found then b else a).num_peaks_found) := by
  split_ifs with hc
  · exact ⟨le_of_lt hc, Or.inr hc⟩
  · exact ⟨le_refl _, Or.inl rfl⟩

theorem cascade_step_trans (s x y : PeakResults)
    (h1 : s.num_peaks_found ≤ x.num_peaks_found ∧
      (x = s ∨ s.num_peaks_found < x.num_peaks_found))
    (h2 : x.num_peaks_found ≤ y.num_peaks_found ∧
      (y = x ∨ x.num_peaks_found < y.num_peaks_found)) :
    s.num_peaks_found ≤ y.num_peaks_found ∧
      (y = s ∨ s.num_peaks_found < y.num_peaks_found) := by
  obtain ⟨ha1, ha2⟩ := h1
  obtain ⟨hb1, hb2⟩ := h2
  refine ⟨le_trans ha1 hb1, ?_⟩
  rcases ha2 with he1 | hl1
  · rcases hb2 with he2 | hl2
    · exact Or.inl (he2.trans he1)
    · exact Or.inr (by rw [← he1]; exact hl2)
  · rcases hb2 with he2 | hl2
    · exact Or.inr (by rw [he2]; exact hl1)
    · exact Or.inr (lt_of_lt_of_le hl1 hb1)

/-- C3: the adaptive cascade never decreases the found count - a later
tier replaces the current result only when it finds strictly more peaks,
so the final count is at least the standard tier's count, the final
result is the standard result or one with strictly more peaks, and when
the standard tier already finds max_peaks peaks the final result is the
standard result unchanged. -/
theorem C3_cascade_monotone (df : List (ℚ × ℚ)) (mp : ℕ) (r s : PeakResults)
    (ha : find_fluorescence_peaks_adaptive df mp = .ok r)
    (hs : find_fluorescence_peaks df mp none 2 (3 / 1000) false 3 = .ok s) :
    s.num_peaks_found ≤ r.num_peaks_found ∧
    (r = s ∨ s.num_peaks_found < r.num_peaks_found) ∧
    (s.num_peaks_found = mp → r = s) := by
  unfold find_fluorescence_peaks_adaptive at ha
  rw [hs] at ha
  dsimp only at ha
  by_cases h1 : s.num_peaks_found < mp
  · rw [if_pos h1] at ha
    cases hsen : find_fluorescence_peaks_sensitive df mp with
    | error e =>
      rw [hsen] at ha
      exact absurd ha (by simp)
    | ok sens =>
      rw [hsen] at ha
      dsimp only at ha
      set r1 := if s.num_peaks_found < sens.num_peaks_found then sens else s with hr1
      have hstep1 := cascade_pick s sens
      rw [← hr1] at hstep1
      by_cases h2 : r1.num_peaks_found < mp
      · rw [if_pos h2] at ha
        cases hult : find_fluorescence_peaks_ultra_sensitive df mp with
        | error e =>
          rw [hult] at ha
          exact absurd ha (by simp)
        | ok ultra =>
          rw [hult] at ha
          dsimp only at ha
          set r2 := if r1.num_peaks_found < ultra.num_peaks_found then ultra else r1 with hr2
          have hstep2 := cascade_pick r1 ultra
          rw [← hr2] at hstep2
          by_cases h3 : r2.num_peaks_found < mp
          · rw [if_pos h3] at ha
            set force := find_fluorescence_peaks_force_detect df mp with hforce
            set rf := if r2.num_peaks_found < force.num_peaks_found then force else r2 with hrf
            have hstep3 := cascade_pick r2 force
            rw [← hrf] at hstep3
            simp only [Except.ok.injEq] at ha
            subst ha
            have hA := cascade_step_trans s r1 r2 hstep1 hstep2
            have hB := cascade_step_trans s r2 rf hA hstep3
            exact ⟨hB.1, hB.2, fun hmp => absurd hmp (Nat.ne_of_lt h1)⟩
          · rw [if_neg h3] at ha
            simp only [Except.ok.injEq] at ha
            subst ha
            have hB := cascade_step_trans s r1 r2 hstep1 hstep2
            exact ⟨hB.1, hB.2, fun hmp => absurd hmp (Nat.ne_of_lt h1)⟩
      · rw [if_neg h2] at ha
        simp only [Except.ok.injEq] at ha
        subst ha
        exact ⟨hstep1.1, hstep1.2, fun hmp => absurd hmp (Nat.ne_of_lt h1)⟩
  · rw [if_neg h1] at ha
    simp only [Except.ok.injEq] at ha
    subst ha
    exact ⟨le_refl _, Or.inl rfl, fun _ => rfl⟩

theorem C3_witness :
    find_fluorescence_peaks_adaptive c4Df 3 = .ok c4PeakResults ∧
    find_fluorescence_peaks c4Df 3 none 2 (3 / 1000) false 3 = .ok c4PeakResults ∧
    c4PeakResults.num_peaks_found ≤ c4PeakResults.num_peaks_found :=
  ⟨by with_unfolding_all rfl, by with_unfolding_all rfl,
   (C3_cascade_monotone c4Df 3 c4PeakResults c4PeakResults (by with_unfolding_all rfl)
     (by with_unfolding_all rfl)).1⟩

theorem pairwise_wl_assignFeatureIds (l : List Feature) (j : ℕ)
    (h : List.Pairwise featureWlLE l) :
    List.Pairwise featureWlLE (assignFeatureIds j l) := by
  have h2 : List.Pairwise (fun a b : ℚ => a ≤ b) (l.map Feature.wavelength) :=
    List.pairwise_map.mpr (h.imp (fun hab => hab))
  have h3 : List.Pairwise (fun a b : ℚ => a ≤ b)
      ((assignFeatureIds j l).map Feature.wavelength) := by
    rw [assignFeatureIds_map_wl]
    exact h2
  exact (List.pairwise_map.mp h3).imp (fun hab => hab)

/-- The unified numbering step of the merge, applied to any sorted list
then truncated, yields a sorted list of bounded length whose entries
carry rank index k + 1 and display id "P" ++ (k + 1) at every position
k. -/
theorem merge_take_spec (L : List Feature) (mt : ℕ) (hL : List.Pairwise featureWlLE L) :
    List.Sorted featureWlLE ((assignFeatureIds 0 L).take mt) ∧
    ((assignFeatureIds 0 L).take mt).length ≤ mt ∧
    ∀ k (hk : k < ((assignFeatureIds 0 L).take mt).length),
      ((((assignFeatureIds 0 L).take mt))[k]).index = k + 1 ∧
      ((((assignFeatureIds 0 L).take mt))[k]).display_id = "P" ++ toString (k + 1) := by
  refine ⟨?_, ?_, ?_⟩
  · exact List.Pairwise.sublist (List.take_sublist _ _) (pairwise_wl_assignFeatureIds L 0 hL)
  · rw [List.length_take]
    exact min_le_left _ _
  · intro k hk
    rw [List.length_take, lt_min_iff] at hk
    obtain ⟨hk2, hkA⟩ := hk
    have hkL : k < L.length := by
      rw [assignFeatureIds_length] at hkA
      exact hkA
    have e2 : ((assignFeatureIds 0 L).take mt)[k]? =
        some { L[k] with index := k + 1, display_id := "P" ++ toString (k + 1) } := by
      rw [List.getElem?_take, if_pos hk2, assignFeatureIds_getElem?,
        List.getElem?_eq_getElem hkL]
      simp
    have e4 : ((assignFeatureIds 0 L).take mt)[k] =
        { L[k] with index := k + 1, display_id := "P" ++ toString (k + 1) } := by
      rw [← Option.some_inj, ← List.getElem?_eq_getElem, e2]
    rw [e4]
    exact ⟨rfl, rfl⟩

/-- C1: for every curve and truncation level, the merged feature list is
sorted by wavelength ascending, has at most max_total_peaks entries, and
carries rank indices exactly 1..N in order with display_id "P" followed
by the rank index, whatever the provenance of each entry. -/
theorem C1_merge_sorted_indexed (df : List (ℚ × ℚ)) (mt : ℕ) (c : CombinedResults)
    (h : find_peaks_and_shoulders_combined df mt = .ok c) :
    List.Sorted featureWlLE c.all_peaks ∧ c.all_peaks.length ≤ mt ∧
    ∀ k (hk : k < c.all_peaks.length),
      (c.all_peaks[k]).index = k + 1 ∧
      (c.all_peaks[k]).display_id = "P" ++ toString (k + 1) := by
  unfold find_peaks_and_shoulders_combined at h
  cases had : find_fluorescence_peaks_adaptive df 8 with
  | error e =>
    rw [had] at h
    exact absurd h (by simp)
  | ok pres =>
    rw [had] at h
    dsimp only at h
    simp only [Except.ok.injEq] at h
    subst h
    dsimp only
    exact merge_take_spec _ mt (List.sorted_insertionSort featureWlLE _)

theorem C1_witness :
    find_peaks_and_shoulders_combined c4Df 3 = .ok c4CombinedRes ∧
    List.Sorted featureWlLE c4CombinedRes.all_peaks ∧
    c4CombinedRes.all_peaks.length ≤ 3 :=
  ⟨by with_unfolding_all rfl,
   (C1_merge_sorted_indexed c4Df 3 c4CombinedRes (by with_unfolding_all rfl)).1,
   (C1_merge_sorted_indexed c4Df 3 c4CombinedRes (by with_unfolding_all rfl)).2.1⟩

/-- C2 counterexample: removing position 0 from a wavelength-sorted
merged set labelled P1..P3 renumbers the rank indices to 1, 2 but leaves
the display identifiers as the stale P2, P3 - they are not the claimed
P1, P2. -/
theorem C2_counterexample :
    (remove_peak sampleResults 0).all_peaks.map Feature.display_id = ["P2", "P3"] ∧
    (remove_peak sampleResults 0).all_peaks.map Feature.index = [1, 2] ∧
    (["P2", "P3"] : List String) ≠ ["P1", "P2"] := by
  refine ⟨?_, ?_, ?_⟩
  · with_unfolding_all rfl
  · with_unfolding_all rfl
  · decide

theorem pairwise_wl_assignFeatureIndicesOnly (l : List Feature) (j : ℕ)
    (h : List.Pairwise featureWlLE l) :
    List.Pairwise featureWlLE (assignFeatureIndicesOnly j l) := by
  have h2 : List.Pairwise (fun a b : ℚ => a ≤ b) (l.map Feature.wavelength) :=
    List.pairwise_map.mpr (h.imp (fun hab => hab))
  have h3 : List.Pairwise (fun a b : ℚ => a ≤ b)
      ((assignFeatureIndicesOnly j l).map Feature.wavelength) := by
    rw [assignFeatureIndicesOnly_map_wl]
    exact h2
  exact (List.pairwise_map.mp h3).imp (fun hab => hab)

/-- C2 (amended): removing entry k from a wavelength-sorted feature set
of size N yields a set of size N-1, still wavelength-sorted, whose rank
indices are exactly 1..N-1 in order and whose first/third references are
recomputed from the new positions 0 and 2 (absent when too few remain);
the surviving entries are exactly the old ones minus entry k and no
re-detection happens - but the display_id fields are NOT renumbered:
they keep their pre-removal values. -/
theorem C2_remove_renumbers (r : CombinedResults) (k : ℤ)
    (hsorted : List.Pairwise featureWlLE r.all_peaks)
    (hk0 : 0 ≤ k) (hk1 : k < (r.all_peaks.length : ℤ)) :
    (remove_peak r k).all_peaks.length = r.all_peaks.length - 1 ∧
    (remove_peak r k).num_peaks_found = r.all_peaks.length - 1 ∧
    List.Pairwise featureWlLE (remove_peak r k).all_peaks ∧
    (∀ j (hj : j < (remove_peak r k).all_peaks.length),
      ((remove_peak r k).all_peaks[j]).index = j + 1) ∧
    (remove_peak r k).all_peaks.map featureCore =
      (r.all_peaks.eraseIdx k.toNat).map featureCore ∧
    (remove_peak r k).first_peak = (remove_peak r k).all_peaks[0]?.map mkRef ∧
    (remove_peak r k).third_peak = (remove_peak r k).all_peaks[2]?.map mkRef := by
  have hcond : 0 ≤ k ∧ k < (r.all_peaks.length : ℤ) := ⟨hk0, hk1⟩
  have hklen : k.toNat < r.all_peaks.length := by omega
  unfold remove_peak update_peak_references
  rw [if_pos hcond]
  dsimp only
  have hlenE : (r.all_peaks.eraseIdx k.toNat).length = r.all_peaks.length - 1 := by
    rw [List.length_eraseIdx, if_pos hklen]
  have hsortE : List.Pairwise featureWlLE (r.all_peaks.eraseIdx k.toNat) :=
    List.Pairwise.sublist (List.eraseIdx_sublist _ _) hsorted
  refine ⟨?_, ?_, ?_, ?_, ?_, ?_, ?_⟩
  · rw [assignFeatureIndicesOnly_length, hlenE]
  · exact hlenE
  · exact pairwise_wl_assignFeatureIndicesOnly _ 0 hsortE
  · intro j hj
    rw [assignFeatureIndicesOnly_length] at hj
    have e2 : (assignFeatureIndicesOnly 0 (r.all_peaks.eraseIdx k.toNat))[j]? =
        some { (r.all_peaks.eraseIdx k.toNat)[j] with index := j + 1 } := by
      rw [assignFeatureIndicesOnly_getElem?, List.getElem?_eq_getElem hj]
      simp
    have e4 : (assignFeatureIndicesOnly 0 (r.all_peaks.eraseIdx k.toNat))[j] =
        { (r.all_peaks.eraseIdx k.toNat)[j] with index := j + 1 } := by
      rw [← Option.some_inj, ← List.getElem?_eq_getElem, e2]
    rw [e4]
  · exact assignFeatureIndicesOnly_map_core _ 0
  · rfl
  · rfl

theorem C2_witness :
    List.Pairwise featureWlLE sampleResults.all_peaks ∧
    (0 : ℤ) ≤ 1 ∧ (1 : ℤ) < (sampleResults.all_peaks.length : ℤ) ∧
    (remove_peak sampleResults 1).all_peaks.length = sampleResults.all_peaks.length - 1 :=
  ⟨by with_unfolding_all decide, by decide, by with_unfolding_all decide,
   (C2_remove_renumbers sampleResults 1 (by with_unfolding_all decide) (by decide)
     (by with_unfolding_all decide)).1⟩
